import Mathlib

/-!
Verification of the form-structure derivation utilities of the infrahub
web front-end (`src/frontend/src/utils/formStructureForCreateEdit.ts`),
the object-details query hook (`useObjectDetails`), and the structure of
the meta-edit form deriver, as a shallow embedding in Lean.

JavaScript dynamic values (the `row` argument is typed `any` in the
source) are embedded as a JSON-like inductive with JS truthiness and
undefined-tolerant property access; a thrown `TypeError` (from calling
`.map` on a non-array) is embedded as `Except.error`.
-/

namespace Infrahub

/-- A JS dynamic value, as used for the loosely-typed `row` argument.
`null` stands for both JS `null` and `undefined` (the code only ever
tests them for truthiness or reads properties through guards). -/
inductive Json where
  | null
  | bool (b : Bool)
  | num (n : Int)
  | str (s : String)
  | arr (items : List Json)
  | obj (fields : List (String × Json))
deriving Repr

/-- JS property access `j[name]`: a field of an object, `undefined`
(here `null`) otherwise. The code only accesses properties of values
already known truthy, where JS yields `undefined` rather than throwing. -/
def Json.getField : Json → String → Json
  | Json.obj fields, name =>
    match fields.find? (fun f => f.fst == name) with
    | some f => f.snd
    | none => Json.null
  | _, _ => Json.null

/-- JS truthiness of a dynamic value. -/
def Json.truthy : Json → Bool
  | Json.null => false
  | Json.bool b => b
  | Json.num n => n != 0
  | Json.str s => s != ""
  | Json.arr _ => true
  | Json.obj _ => true

/-- `row[name]` where `row` itself may be `undefined` (`none`). -/
def rowGet (row : Option Json) (name : String) : Json :=
  match row with
  | none => Json.null
  | some r => r.getField name

/-- Relationship cardinality, `"one" | "many"` in the schema. -/
inductive Cardinality where
  | one
  | many
deriving Repr, DecidableEq

/-- An option of a select control (`SelectOption` in `components/select`). -/
structure SelectOption where
  name : String
  id : String
deriving Repr, DecidableEq

/-- One attribute of a node schema, with the fields the deriver reads. -/
structure SchemaAttribute where
  name : String
  kind : String
  label : Option String
  enum : Option (List String)
  optional : Option Bool
deriving Repr, DecidableEq

/-- One relationship of a node schema, with the fields the deriver reads.
`inherited` is read only for truthiness, so an absent flag is `false`. -/
structure SchemaRelationship where
  name : String
  peer : String
  kind : String
  label : Option String
  cardinality : Cardinality
  inherited : Bool
deriving Repr, DecidableEq

/-- A node schema (`iNodeSchema`); `attributes` and `relationships` are
optional, matching the `?.` access in the source. -/
structure NodeSchema where
  kind : String
  name : String
  attributes : Option (List SchemaAttribute)
  relationships : Option (List SchemaRelationship)
  inherit_from : Option (List String)
deriving Repr

/-- A generic schema (`iGenericSchema`), with the fields the deriver reads. -/
structure GenericSchema where
  kind : String
  used_by : Option (List String)
deriving Repr

/-- `IModelSchema = iGenericSchema | iNodeSchema` from `schema.atom.ts`. -/
def IModelSchema := Sum NodeSchema GenericSchema

/-- One row of `iPeerDropdownOptions`: a fetched peer object. -/
structure PeerDropdownOption where
  id : String
  display_label : String
deriving Repr, DecidableEq

/-- JS object used as a string-keyed map: lookup of the first matching key,
`undefined` (`none`) when absent. -/
def lookupStr (m : List (String × α)) (key : String) : Option α :=
  (m.find? (fun p => p.fst == key)).map (fun p => p.snd)

/-- `dropdownOptions[schemaKindNameMap[relationship.peer]]`: indexing with
an `undefined` key yields `undefined`. -/
def peerDropdown (dropdownOptions : List (String × List PeerDropdownOption))
    (schemaKindNameMap : List (String × String)) (peer : String) :
    Option (List PeerDropdownOption) :=
  match lookupStr schemaKindNameMap peer with
  | none => none
  | some peerName => lookupStr dropdownOptions peerName

/-- A derived form-field descriptor (`DynamicFieldData`). `optionsValues`
is the `options.values` list; `required` is `config.required` when a
`config` object with it is produced (`none` when the descriptor carries
no such entry); `isAttribute`/`isRelationship` are set only by the
meta-edit deriver. -/
structure DynamicFieldData where
  name : String
  kind : String
  type : String
  label : String
  value : Json
  optionsValues : List SelectOption
  required : Option String
  isAttribute : Option Bool := none
  isRelationship : Option Bool := none
deriving Repr

/-- Modelled from the spec: `getFormInputControlTypeFromSchemaAttributeKind`
is imported from `screens/edit-form-hook/dynamic-control-types`, which is
not among the sources. The spec calls it "a fixed kind→control-type table"
and lists select, two-step cascading select, code editor and checkbox among
the form input components, so the table maps some kinds to controls other
than "select"; the exact rows beyond that do not matter to any claim. -/
def getFormInputControlTypeFromSchemaAttributeKind : String → String
  | "Checkbox" => "checkbox"
  | "Number" => "number"
  | "TextArea" => "textarea"
  | "JSON" => "code"
  | _ => "text"

/-- The descriptor pushed for one schema attribute
(`formStructureForCreateEdit.ts` lines 27-49). -/
def attributeField (attr : SchemaAttribute) (row : Option Json) :
    DynamicFieldData :=
  let options : List SelectOption :=
    match attr.enum with
    | some values => values.map (fun v => { name := v, id := v })
    | none => []
  { name := attr.name ++ ".value"
    kind := attr.kind
    type :=
      if attr.enum.isSome then "select"
      else getFormInputControlTypeFromSchemaAttributeKind attr.kind
    label :=
      match attr.label with
      | some l => if l != "" then l else attr.name
      | none => attr.name
    value :=
      if (rowGet row attr.name).truthy then
        (rowGet row attr.name).getField "value"
      else Json.str ""
    optionsValues := options
    required := some (if attr.optional == some false then "Required" else "") }

/-- The option list of one eligible relationship
(`formStructureForCreateEdit.ts` lines 54-78): peer dropdown rows when
not inherited and present (a present empty list is truthy in JS), else
the concrete users of the peer generic. -/
def relationshipOptions (schemas : List NodeSchema) (generics : List GenericSchema)
    (dropdownOptions : List (String × List PeerDropdownOption))
    (schemaKindNameMap : List (String × String))
    (relationship : SchemaRelationship) : List SelectOption :=
  match (if relationship.inherited then none
         else peerDropdown dropdownOptions schemaKindNameMap relationship.peer) with
  | some rows => rows.map (fun row => { name := row.display_label, id := row.id })
  | none =>
    match generics.find? (fun g => g.kind == relationship.peer) with
    | some generic =>
      (generic.used_by.getD []).filterMap (fun name =>
        match schemas.find? (fun s => s.kind == name) with
        | some relatedSchema => some { id := relatedSchema.name, name := name }
        | none => none)
    | none => []

/-- JS `value.map(item => item.id)`: defined on arrays, a thrown
`TypeError` on anything else. -/
def jsMapId : Json → Except String Json
  | Json.arr items => Except.ok (Json.arr (items.map (fun item => item.getField "id")))
  | _ => Except.error "TypeError: value.map is not a function"

/-- The immediately-invoked value extractor of one eligible relationship
(`formStructureForCreateEdit.ts` lines 87-102). -/
def relationshipValue (relationship : SchemaRelationship) (row : Option Json) :
    Except String Json :=
  let value := rowGet row relationship.name
  if !value.truthy then Except.ok (Json.str "")
  else if relationship.cardinality == Cardinality.one && !relationship.inherited then
    Except.ok (value.getField "id")
  else if relationship.cardinality == Cardinality.one && relationship.inherited then
    Except.ok value
  else jsMapId value

/-- The descriptor pushed for one eligible relationship
(`formStructureForCreateEdit.ts` lines 79-106); an exception from the
value extractor propagates. -/
def relationshipField (schemas : List NodeSchema) (generics : List GenericSchema)
    (dropdownOptions : List (String × List PeerDropdownOption))
    (schemaKindNameMap : List (String × String))
    (relationship : SchemaRelationship) (row : Option Json) :
    Except String DynamicFieldData :=
  match relationshipValue relationship row with
  | Except.error e => Except.error e
  | Except.ok value =>
    Except.ok
      { name := relationship.name ++
          (if relationship.cardinality == Cardinality.one then ".id" else ".list")
        kind := "String"
        type :=
          if relationship.cardinality == Cardinality.many then "multiselect"
          else if relationship.inherited then "select2step" else "select"
        label :=
          match relationship.label with
          | some l => if l != "" then l else relationship.name
          | none => relationship.name
        value := value
        optionsValues :=
          relationshipOptions schemas generics dropdownOptions schemaKindNameMap
            relationship
        required := none }

/-- Sequencing of a per-element computation over a list, stopping at the
first exception, as a `forEach` of pushes does. -/
def exceptMap (f : α → Except String β) : List α → Except String (List β)
  | [] => Except.ok []
  | x :: xs =>
    match f x with
    | Except.error e => Except.error e
    | Except.ok y =>
      match exceptMap f xs with
      | Except.error e => Except.error e
      | Except.ok ys => Except.ok (y :: ys)

/-- `getFormStructureForCreateEdit` (`formStructureForCreateEdit.ts`
lines 12-110): attribute descriptors in attribute order, then one
descriptor per relationship of kind "Attribute" in relationship order;
an absent schema yields the empty list; a thrown `TypeError` aborts the
whole call. `genericSchemaMap` is accepted and unused, as in the source. -/
def getFormStructureForCreateEdit (schema : Option NodeSchema)
    (schemas : List NodeSchema) (generics : List GenericSchema)
    (dropdownOptions : List (String × List PeerDropdownOption))
    (schemaKindNameMap : List (String × String))
    (genericSchemaMap : List (String × List String))
    (row : Option Json) : Except String (List DynamicFieldData) :=
  match schema with
  | none => Except.ok []
  | some schema =>
    match exceptMap
        (fun r => relationshipField schemas generics dropdownOptions schemaKindNameMap r row)
        ((schema.relationships.getD []).filter (fun r => r.kind == "Attribute")) with
    | Except.error e => Except.error e
    | Except.ok relationshipFields =>
      Except.ok
        (((schema.attributes.getD []).map (fun a => attributeField a row))
          ++ relationshipFields)

/-- `sourceOwnerFields` of `getFormStructureForMetaEdit` (line 120). -/
def sourceOwnerFields (type : String) : List String :=
  if type == "attribute" then ["owner", "source"]
  else ["_relation__owner", "_relation__source"]

/-- `booleanFields` of `getFormStructureForMetaEdit` (line 121). -/
def booleanFields (type : String) : List String :=
  if type == "attribute" then ["is_visible", "is_protected"]
  else ["_relation__is_visible", "_relation__is_protected"]

/-- The `relatedObjects` lookup table (lines 123-128). -/
def relatedObjects : List (String × String) :=
  [("source", "DataSource"), ("owner", "DataOwner"),
   ("_relation__source", "DataSource"), ("_relation__owner", "DataOwner")]

/-- ``f.split("_").filter(r => !!r).join(" ")`` (lines 155 and 172). -/
def metaFieldLabel (f : String) : String :=
  String.intercalate " " ((f.splitOn "_").filter (fun r => r != ""))

/-- One source/owner two-step-select descriptor of the meta-edit form
(lines 131-162). -/
def sourceOwnerFormField (row : Option Json) (attributeOrRelationshipName : String)
    (schemaList : List NodeSchema) (f : String) : DynamicFieldData :=
  let schemaOptions : List SelectOption :=
    (schemaList.filter (fun schema =>
      match lookupStr relatedObjects f with
      | some target => (schema.inherit_from.getD []).contains target
      | none => false)).map (fun schema => { name := schema.kind, id := schema.name })
  { name := attributeOrRelationshipName ++ "." ++ f
    kind := "Text"
    isAttribute := some false
    isRelationship := some false
    type := "select2step"
    label := metaFieldLabel f
    value := (rowGet row attributeOrRelationshipName).getField f
    optionsValues := schemaOptions
    required := none }

/-- One visibility/protection checkbox descriptor of the meta-edit form
(lines 164-179). -/
def booleanFormField (row : Option Json) (attributeOrRelationshipName : String)
    (f : String) : DynamicFieldData :=
  { name := attributeOrRelationshipName ++ "." ++ f
    kind := "Checkbox"
    isAttribute := some false
    isRelationship := some false
    type := "checkbox"
    label := metaFieldLabel f
    value := (rowGet row attributeOrRelationshipName).getField f
    optionsValues := []
    required := none }

/-- `getFormStructureForMetaEdit` (`formStructureForCreateEdit.ts`
lines 114-182): the source/owner two-step selects followed by the
visibility/protection checkboxes. -/
def getFormStructureForMetaEdit (row : Option Json) (type : String)
    (attributeOrRelationshipName : String) (schemaList : List NodeSchema) :
    List DynamicFieldData :=
  ((sourceOwnerFields type).map
      (sourceOwnerFormField row attributeOrRelationshipName schemaList))
    ++ ((booleanFields type).map (booleanFormField row attributeOrRelationshipName))

/-- The query-document selection of `useObjectDetails`: the built
object-details document when a schema is present, the trivial fallback
otherwise. The builder `getObjectDetailsPaginated` is not among the
sources, so the document it would build is passed in abstractly. -/
def useObjectDetailsQuery (builtObjectDetailsQuery : String)
    (schema : Option IModelSchema) : String :=
  match schema with
  | some _ => builtObjectDetailsQuery
  | none => "query \x7b ok \x7d"

/-! Concrete sample inputs used to instantiate the theorems below. -/

/-- A sample plain text attribute. -/
def sampleAttribute : SchemaAttribute :=
  { name := "name", kind := "Text", label := none, enum := none, optional := some false }

/-- A sample attribute carrying a non-empty enum list. -/
def sampleEnumAttribute : SchemaAttribute :=
  { name := "status", kind := "Checkbox", label := none,
    enum := some ["active", "planned"], optional := none }

/-- The same attribute without the enum list. -/
def samplePlainCheckboxAttribute : SchemaAttribute :=
  { name := "status", kind := "Checkbox", label := none, enum := none, optional := none }

/-- A sample one-cardinality non-inherited relationship of kind "Attribute". -/
def sampleRelationship : SchemaRelationship :=
  { name := "site", peer := "Location", kind := "Attribute", label := none,
    cardinality := Cardinality.one, inherited := false }

/-- A sample many-cardinality relationship of kind "Attribute". -/
def sampleManyRelationship : SchemaRelationship :=
  { name := "tags", peer := "Tag", kind := "Attribute", label := none,
    cardinality := Cardinality.many, inherited := false }

/-- A sample node schema with one attribute and one eligible relationship. -/
def sampleSchema : NodeSchema :=
  { kind := "Device", name := "device", attributes := some [sampleAttribute],
    relationships := some [sampleRelationship], inherit_from := none }

/-- A schema holding only the enum attribute. -/
def sampleEnumSchema : NodeSchema :=
  { kind := "Device", name := "device", attributes := some [sampleEnumAttribute],
    relationships := none, inherit_from := none }

/-- A schema holding only the enum-less attribute of the same kind. -/
def samplePlainSchema : NodeSchema :=
  { kind := "Device", name := "device",
    attributes := some [samplePlainCheckboxAttribute],
    relationships := none, inherit_from := none }

/-- A sample row holding a one-cardinality relationship target. -/
def sampleRow : Json :=
  Json.obj [("site", Json.obj [("id", Json.str "site-17"),
                               ("display_label", Json.str "Paris")])]

/-- A sample row holding a many-cardinality relationship target list. -/
def sampleManyRow : Json :=
  Json.obj [("tags", Json.arr [Json.obj [("id", Json.str "t1")],
                               Json.obj [("id", Json.str "t2")]])]

/-- The descriptor list derived from the sample schema. -/
def sampleFields : List DynamicFieldData :=
  ((getFormStructureForCreateEdit (some sampleSchema) [] [] [] [] [] none).toOption).getD []

/-- A blank descriptor, used only as a `getD` default below. -/
def emptyFieldData : DynamicFieldData :=
  { name := "", kind := "", type := "", label := "", value := Json.null,
    optionsValues := [], required := none }

/-- The descriptor derived for the sample one-cardinality relationship. -/
def sampleRelationshipField : DynamicFieldData :=
  ((relationshipField [] [] [] [] sampleRelationship none).toOption).getD emptyFieldData

/-- The descriptor derived for the sample many-cardinality relationship. -/
def sampleManyRelationshipField : DynamicFieldData :=
  ((relationshipField [] [] [] [] sampleManyRelationship none).toOption).getD emptyFieldData

/-- The descriptor derived for the sample relationship against `sampleRow`. -/
def sampleRelationshipRowField : DynamicFieldData :=
  ((relationshipField [] [] [] [] sampleRelationship (some sampleRow)).toOption).getD
    emptyFieldData

/-! Helper lemmas shared by the claim theorems. -/

/-- `exceptMap` preserves the list length on success. -/
theorem exceptMap_ok_length (f : α → Except String β) :
    ∀ (xs : List α) (ys : List β), exceptMap f xs = Except.ok ys → ys.length = xs.length := by
  intro xs
  induction xs with
  | nil =>
    intro ys h
    cases h
    rfl
  | cons x xs ih =>
    intro ys h
    cases hfx : f x with
    | error e => simp [exceptMap, hfx] at h
    | ok y =>
      cases hm : exceptMap f xs with
      | error e => simp [exceptMap, hfx, hm] at h
      | ok ys2 =>
        simp [exceptMap, hfx, hm] at h
        subst h
        simp [ih ys2 hm]

/-- Inversion of a successful `relationshipField`: the control type, the
label and the value of the produced descriptor. -/
theorem relationshipField_ok_fields (schemas : List NodeSchema)
    (generics : List GenericSchema)
    (dropdownOptions : List (String × List PeerDropdownOption))
    (schemaKindNameMap : List (String × String))
    (r : SchemaRelationship) (row : Option Json) (field : DynamicFieldData)
    (h : relationshipField schemas generics dropdownOptions schemaKindNameMap r row
        = Except.ok field) :
    field.type = (if r.cardinality == Cardinality.many then "multiselect"
                  else if r.inherited then "select2step" else "select")
    ∧ field.label = (match r.label with
                     | some l => if l != "" then l else r.name
                     | none => r.name)
    ∧ relationshipValue r row = Except.ok field.value := by
  cases hv : relationshipValue r row with
  | error e => simp [relationshipField, hv] at h
  | ok v =>
    simp [relationshipField, hv] at h
    subst h
    refine ⟨by simp, ?_, rfl⟩
    cases r.label with
    | none => rfl
    | some l => by_cases hl : l = "" <;> simp [hl]

/-- C1: for every schema given to `getFormStructureForCreateEdit` (with
any other arguments), whenever the call returns a descriptor list, that
list has exactly `attributes.length` plus the number of relationships of
kind "Attribute" entries, and it is one descriptor per schema attribute
in attribute order followed by one descriptor per "Attribute"-kind
relationship in relationship order. -/
theorem c1_create_edit_count_and_order
    (schema : NodeSchema) (schemas : List NodeSchema) (generics : List GenericSchema)
    (dropdownOptions : List (String × List PeerDropdownOption))
    (schemaKindNameMap : List (String × String))
    (genericSchemaMap : List (String × List String))
    (row : Option Json) (fields : List DynamicFieldData)
    (h : getFormStructureForCreateEdit (some schema) schemas generics dropdownOptions
        schemaKindNameMap genericSchemaMap row = Except.ok fields) :
    fields.length = (schema.attributes.getD []).length
        + ((schema.relationships.getD []).filter (fun r => r.kind == "Attribute")).length
    ∧ ∃ relationshipFields,
        exceptMap
            (fun r => relationshipField schemas generics dropdownOptions schemaKindNameMap r row)
            ((schema.relationships.getD []).filter (fun r => r.kind == "Attribute"))
          = Except.ok relationshipFields
        ∧ fields = ((schema.attributes.getD []).map (fun a => attributeField a row))
            ++ relationshipFields := by
  cases hm : exceptMap
      (fun r => relationshipField schemas generics dropdownOptions schemaKindNameMap r row)
      ((schema.relationships.getD []).filter (fun r => r.kind == "Attribute")) with
  | error e => simp [getFormStructureForCreateEdit, hm] at h
  | ok relationshipFields =>
    simp [getFormStructureForCreateEdit, hm] at h
    subst h
    refine ⟨?_, relationshipFields, rfl, rfl⟩
    simp [exceptMap_ok_length _ _ _ hm]

/-- C1 witness: the sample schema with one attribute and one eligible
relationship yields exactly two descriptors, in that order. -/
theorem c1_create_edit_count_and_order_witness :
    sampleFields.length = (sampleSchema.attributes.getD []).length
        + ((sampleSchema.relationships.getD []).filter (fun r => r.kind == "Attribute")).length
    ∧ ∃ relationshipFields,
        exceptMap (fun r => relationshipField [] [] [] [] r none)
            ((sampleSchema.relationships.getD []).filter (fun r => r.kind == "Attribute"))
          = Except.ok relationshipFields
        ∧ sampleFields = ((sampleSchema.attributes.getD []).map (fun a => attributeField a none))
            ++ relationshipFields :=
  c1_create_edit_count_and_order sampleSchema [] [] [] [] [] none sampleFields (by rfl)

/-- C2 counterexample: the claim says the control type is fully determined
by kind, cardinality and inheritance; here two calls whose single
attributes agree on kind (attributes have no cardinality or inheritance
flag) derive different control types, because the presence of an enum
list also matters. -/
theorem c2_control_type_kind_only_counterexample :
    ((getFormStructureForCreateEdit (some sampleEnumSchema) [] [] [] [] [] none).toOption.getD
        []).map (fun f => f.type) = ["select"]
    ∧ ((getFormStructureForCreateEdit (some samplePlainSchema) [] [] [] [] [] none).toOption.getD
        []).map (fun f => f.type) = ["checkbox"]
    ∧ sampleEnumAttribute.kind = samplePlainCheckboxAttribute.kind
    ∧ ("select" : String) ≠ "checkbox" :=
  ⟨rfl, rfl, rfl, by decide⟩

/-- C2 (amended): a descriptor's control type is fully determined by the
source attribute's or relationship's kind, cardinality and inheritance
flag together with the presence of an enumerated-values list — nothing
else in the input matters. -/
theorem c2_control_type_determined
    (a1 a2 : SchemaAttribute) (row1 row2 : Option Json)
    (schemas1 schemas2 : List NodeSchema) (generics1 generics2 : List GenericSchema)
    (dropdownOptions1 dropdownOptions2 : List (String × List PeerDropdownOption))
    (schemaKindNameMap1 schemaKindNameMap2 : List (String × String))
    (r1 r2 : SchemaRelationship) (f1 f2 : DynamicFieldData)
    (hkind : a1.kind = a2.kind) (henum : a1.enum.isSome = a2.enum.isSome)
    (hcard : r1.cardinality = r2.cardinality) (hinh : r1.inherited = r2.inherited)
    (h1 : relationshipField schemas1 generics1 dropdownOptions1 schemaKindNameMap1 r1 row1
        = Except.ok f1)
    (h2 : relationshipField schemas2 generics2 dropdownOptions2 schemaKindNameMap2 r2 row2
        = Except.ok f2) :
    (attributeField a1 row1).type = (attributeField a2 row2).type ∧ f1.type = f2.type := by
  constructor
  · simp [attributeField, hkind, henum]
  · rw [(relationshipField_ok_fields _ _ _ _ _ _ _ h1).1,
      (relationshipField_ok_fields _ _ _ _ _ _ _ h2).1, hcard, hinh]

/-- C2 witness: the amended determinism theorem applied at concrete
attributes and relationships. -/
theorem c2_control_type_determined_witness :
    (attributeField sampleEnumAttribute none).type = (attributeField sampleEnumAttribute none).type
    ∧ sampleRelationshipField.type = sampleRelationshipField.type :=
  c2_control_type_determined sampleEnumAttribute sampleEnumAttribute none none
    [] [] [] [] [] [] [] [] sampleRelationship sampleRelationship
    sampleRelationshipField sampleRelationshipField rfl rfl rfl rfl (by rfl) (by rfl)

/-- C3: every relationship of kind "Attribute" processed by the deriver
gets control type "multiselect" when its cardinality is "many",
"select2step" when its cardinality is "one" and it is inherited, and
"select" for every other one-cardinality relationship. -/
theorem c3_relationship_control_type
    (schemas : List NodeSchema) (generics : List GenericSchema)
    (dropdownOptions : List (String × List PeerDropdownOption))
    (schemaKindNameMap : List (String × String))
    (r : SchemaRelationship) (row : Option Json) (field : DynamicFieldData)
    (hkind : r.kind = "Attribute")
    (h : relationshipField schemas generics dropdownOptions schemaKindNameMap r row
        = Except.ok field) :
    (r.cardinality = Cardinality.many → field.type = "multiselect")
    ∧ (r.cardinality = Cardinality.one → r.inherited = true → field.type = "select2step")
    ∧ (r.cardinality = Cardinality.one → r.inherited = false → field.type = "select") := by
  have ht := (relationshipField_ok_fields _ _ _ _ _ _ _ h).1
  refine ⟨fun hc => ?_, fun hc hi => ?_, fun hc hi => ?_⟩
  · rw [ht, hc]; simp
  · rw [ht, hc]; simp [hi]
  · rw [ht, hc]; simp [hi]

/-- C3 witness: the sample many-cardinality relationship derives the
control type "multiselect". -/
theorem c3_relationship_control_type_witness :
    sampleManyRelationshipField.type = "multiselect" :=
  (c3_relationship_control_type [] [] [] [] sampleManyRelationship none
    sampleManyRelationshipField rfl (by rfl)).1 rfl

/-- C4: an attribute with a non-empty enum list derives control type
"select" whatever its declared kind; an attribute without an enum list
derives the control type the fixed kind→control-type table assigns to
its declared kind. -/
theorem c4_attribute_enum_control_type (attr : SchemaAttribute) (row : Option Json) :
    (∀ values, values ≠ [] → attr.enum = some values → (attributeField attr row).type = "select")
    ∧ (attr.enum = none → (attributeField attr row).type
        = getFormInputControlTypeFromSchemaAttributeKind attr.kind) := by
  constructor
  · intro values _ he
    simp [attributeField, he]
  · intro he
    simp [attributeField, he]

/-- C4 witness: the enum attribute derives "select" though its kind is
"Checkbox"; the enum-less "Text" attribute derives the table's entry. -/
theorem c4_attribute_enum_control_type_witness :
    (attributeField sampleEnumAttribute none).type = "select"
    ∧ (attributeField sampleAttribute none).type
        = getFormInputControlTypeFromSchemaAttributeKind "Text" :=
  ⟨(c4_attribute_enum_control_type sampleEnumAttribute none).1 ["active", "planned"]
      (by decide) rfl,
   (c4_attribute_enum_control_type sampleAttribute none).2 rfl⟩

/-- C5: for every row holding a (truthy) value under a relationship's
name, the derived descriptor's initial value is `row[name].id` for a
one-cardinality non-inherited relationship, the raw `row[name]` for a
one-cardinality inherited relationship, and the list of `id` fields of
the elements of `row[name]` for a many-cardinality relationship. -/
theorem c5_relationship_initial_value
    (schemas : List NodeSchema) (generics : List GenericSchema)
    (dropdownOptions : List (String × List PeerDropdownOption))
    (schemaKindNameMap : List (String × String))
    (r : SchemaRelationship) (row : Option Json) (field : DynamicFieldData)
    (h : relationshipField schemas generics dropdownOptions schemaKindNameMap r row
        = Except.ok field)
    (hpresent : (rowGet row r.name).truthy = true) :
    (r.cardinality = Cardinality.one → r.inherited = false →
        field.value = (rowGet row r.name).getField "id")
    ∧ (r.cardinality = Cardinality.one → r.inherited = true →
        field.value = rowGet row r.name)
    ∧ (∀ items, r.cardinality = Cardinality.many → rowGet row r.name = Json.arr items →
        field.value = Json.arr (items.map (fun item => item.getField "id"))) := by
  have hv := (relationshipField_ok_fields _ _ _ _ _ _ _ h).2.2
  rw [relationshipValue] at hv
  simp only [hpresent, Bool.not_true, Bool.false_eq_true, if_false] at hv
  refine ⟨fun hc hi => ?_, fun hc hi => ?_, fun items hc harr => ?_⟩
  · simp only [hc, hi] at hv
    simp at hv
    exact hv.symm
  · simp only [hc, hi] at hv
    simp at hv
    exact hv.symm
  · simp only [hc] at hv
    simp [harr, jsMapId] at hv
    exact hv.symm

/-- C5 witness: the sample one-cardinality non-inherited relationship
against a row holding `{id: "site-17"}` under its name derives the id. -/
theorem c5_relationship_initial_value_witness :
    sampleRelationshipRowField.value = (rowGet (some sampleRow) sampleRelationship.name).getField "id" :=
  (c5_relationship_initial_value [] [] [] [] sampleRelationship (some sampleRow)
    sampleRelationshipRowField (by rfl) (by rfl)).1 rfl rfl

/-- C6: calling `getFormStructureForCreateEdit` with an absent schema
returns the empty list, whatever the other arguments, and raises no
error (the result is a normal `Except.ok` return). -/
theorem c6_absent_schema_returns_empty
    (schemas : List NodeSchema) (generics : List GenericSchema)
    (dropdownOptions : List (String × List PeerDropdownOption))
    (schemaKindNameMap : List (String × String))
    (genericSchemaMap : List (String × List String)) (row : Option Json) :
    getFormStructureForCreateEdit none schemas generics dropdownOptions
        schemaKindNameMap genericSchemaMap row = Except.ok [] := rfl

/-- C7 counterexample: the claim says `getFormStructureForMetaEdit`
returns a six-field descriptor set; on a concrete input it returns four
descriptors (two two-step selects and two checkboxes). -/
theorem c7_meta_edit_six_fields_counterexample :
    (getFormStructureForMetaEdit none "attribute" "name" []).length = 4
    ∧ (4 : Nat) ≠ 6 := ⟨rfl, by decide⟩

/-- C7 (amended): for every input, `getFormStructureForMetaEdit` returns
a fixed four-field descriptor set, independent of the general deriver:
two two-step selects for source/owner assignment followed by two
checkboxes for visibility/protection flags. -/
theorem c7_meta_edit_fixed_structure
    (row : Option Json) (type attributeOrRelationshipName : String)
    (schemaList : List NodeSchema) :
    (getFormStructureForMetaEdit row type attributeOrRelationshipName schemaList).map
        (fun f => f.type) = ["select2step", "select2step", "checkbox", "checkbox"]
    ∧ (getFormStructureForMetaEdit row type attributeOrRelationshipName schemaList).length
        = 4 := by
  cases htype : type == "attribute" <;>
    simp [getFormStructureForMetaEdit, sourceOwnerFields, booleanFields, htype,
      sourceOwnerFormField, booleanFormField]

/-- C8: the object-details hook passes the built object-details document
to the GraphQL parser when the governing schema is present, and the
trivial fallback document "query { ok }" when it is absent, so no
schema-dependent document is parsed during initial load. -/
theorem c8_fallback_query_on_absent_schema (builtObjectDetailsQuery : String) :
    useObjectDetailsQuery builtObjectDetailsQuery none = "query { ok }"
    ∧ ∀ schema : IModelSchema,
        useObjectDetailsQuery builtObjectDetailsQuery (some schema)
          = builtObjectDetailsQuery :=
  ⟨rfl, fun _ => rfl⟩

/-- C10: a descriptor's label is the source attribute's or relationship's
label when that label is present and truthy (non-empty), and the
attribute's or relationship's name otherwise. -/
theorem c10_label_fallback
    (attr : SchemaAttribute)
    (schemas : List NodeSchema) (generics : List GenericSchema)
    (dropdownOptions : List (String × List PeerDropdownOption))
    (schemaKindNameMap : List (String × String))
    (r : SchemaRelationship) (row : Option Json) (field : DynamicFieldData)
    (h : relationshipField schemas generics dropdownOptions schemaKindNameMap r row
        = Except.ok field) :
    ((attr.label = none ∨ attr.label = some "") → (attributeField attr row).label = attr.name)
    ∧ (∀ l, attr.label = some l → l ≠ "" → (attributeField attr row).label = l)
    ∧ ((r.label = none ∨ r.label = some "") → field.label = r.name)
    ∧ (∀ l, r.label = some l → l ≠ "" → field.label = l) := by
  have hl := (relationshipField_ok_fields _ _ _ _ _ _ _ h).2.1
  refine ⟨fun hcase => ?_, fun l hsome hne => ?_, fun hcase => ?_, fun l hsome hne => ?_⟩
  · cases hcase with
    | inl hn => simp [attributeField, hn]
    | inr he => simp [attributeField, he]
  · simp [attributeField, hsome, hne]
  · cases hcase with
    | inl hn => rw [hl, hn]
    | inr he => rw [hl, he]; simp
  · rw [hl, hsome]
    simp [hne]

/-- C10 witness: the sample attribute and relationship both carry no
label, so both descriptors fall back to the name. -/
theorem c10_label_fallback_witness :
    (attributeField sampleAttribute none).label = sampleAttribute.name
    ∧ sampleRelationshipField.label = sampleRelationship.name :=
  ⟨(c10_label_fallback sampleAttribute [] [] [] [] sampleRelationship none
      sampleRelationshipField (by rfl)).1 (Or.inl rfl),
   (c10_label_fallback sampleAttribute [] [] [] [] sampleRelationship none
      sampleRelationshipField (by rfl)).2.2.1 (Or.inl rfl)⟩

end Infrahub
